import Mathlib

/-!
# Verification of the Athena Assist RAG pipeline

A shallow embedding of the retrieval-augmented generation core of the
Athena Assist chatbot (`modules/rag_handler.py`, `modules/llm_handler.py`,
`config.py`, `app.py`), together with proofs about the embedded
definitions.  Python strings are modelled as `String` / `List Char`,
bytes as `List Nat`, exceptions as `Except PyError`, and the two opaque
external services (the sentence-embedding model and the hosted Groq
completion endpoint) as explicit parameters.  Library components called
by the repository but whose code is not part of it (`langchain`'s
`CharacterTextSplitter`, `FAISS`, `pandas` parsing, the missing
`get_llm_chain`) are modelled from the specification, as marked on the
corresponding definitions.
-/

/-! ## Python string primitives -/

/-- The whitespace characters stripped by Python's `str.strip()`
(ASCII range: space, tab, newline, carriage return, vertical tab,
form feed). -/
def isPyWs (c : Char) : Bool :=
  c = ' ' || c = '\t' || c = '\n' || c = '\r' || c = Char.ofNat 11 || c = Char.ofNat 12

/-- Python `str.strip()` on a character list: drop whitespace from both ends. -/
def pyStripChars (l : List Char) : List Char :=
  ((l.dropWhile isPyWs).reverse.dropWhile isPyWs).reverse

/-- Python `str.strip()`. -/
def pyStrip (s : String) : String := ⟨pyStripChars s.data⟩

/-- Python `str.capitalize()`: first character uppercased, all remaining
characters lowercased. -/
def pyCapitalize (s : String) : String :=
  match s.data with
  | [] => ""
  | c :: cs => ⟨c.toUpper :: cs.map Char.toLower⟩

/-- A string with only its first character uppercased, the rest kept as
is (the reading "first letter capitalized" used by the specification). -/
def capFirst (s : String) : String :=
  match s.data with
  | [] => ""
  | c :: cs => ⟨c.toUpper :: cs⟩

/-- Splitting a character list at every occurrence of a separator
character, keeping empty pieces (the behaviour of Python's
`str.split(sep)` / `re.split`). -/
def splitSep (sep : Char) : List Char → List (List Char)
  | [] => [[]]
  | c :: cs =>
    if c = sep then [] :: splitSep sep cs
    else
      match splitSep sep cs with
      | [] => [[c]]
      | p :: ps => (c :: p) :: ps

/-- Rejoining the pieces produced by `splitSep`, putting the separator back
between consecutive pieces. -/
def joinParts (sep : Char) : List (List Char) → List Char
  | [] => []
  | p :: ps => p ++ (ps.map (fun q => sep :: q)).flatten

/-- The trailing `n` characters of a list (used for chunk overlap). -/
def takeRight (n : Nat) (l : List Char) : List Char := l.drop (l.length - n)

/-! ## Chunker -/

/-- Modelled from the spec: the Chunker's paragraph-accumulation loop
(§4.2), standing in for `langchain.text_splitter.CharacterTextSplitter`
which is library code absent from `src/`.  Paragraphs are accumulated
into a running buffer; when appending the next paragraph would exceed
`maxSize` the current chunk is closed and the next chunk is seeded with
the trailing `overlap` characters of the chunk just closed. -/
def chunk_go (maxSize overlap : Nat) (buf : List Char) :
    List (List Char) → List (List Char)
  | [] => [buf]
  | p :: ps =>
    if maxSize < buf.length + 1 + p.length then
      buf :: chunk_go maxSize overlap (takeRight overlap buf ++ '\n' :: p) ps
    else
      chunk_go maxSize overlap (buf ++ '\n' :: p) ps

/-- Helper for `split_text`: dispatch on the paragraph list. -/
def splitAux (maxSize overlap : Nat) : List (List Char) → List (List Char)
  | [] => []
  | p :: ps =>
    if (p :: ps).all (fun q => q.all isPyWs) then []
    else chunk_go maxSize overlap p ps

/-- Modelled from the spec: the Chunker contract `split(text, maxSize,
overlap)` of §4.2 (the repository calls
`CharacterTextSplitter(separator="\n", chunk_size=1000, chunk_overlap=200)`,
whose code is not part of `src/`).  The text is split on the newline
separator into paragraphs and the paragraphs are greedily packed; the
result is empty (the `EmptyInputError` state, surfaced by the caller in
`rag_handler.py` as a `ValueError`) exactly when the text is empty or
contains no extractable content after splitting. -/
def split_text (maxSize overlap : Nat) (text : List Char) : List (List Char) :=
  splitAux maxSize overlap (splitSep '\n' text)

/-! ## Vector index and retrieval -/

/-- Squared Euclidean distance between two embedding vectors. -/
def sqDist (v w : List Int) : Int :=
  ((v.zipWith (fun a b => a - b) w).map (fun x => x * x)).sum

/-- Pair every element of a list with its position, starting at `n`. -/
def withIdx (n : Nat) : List α → List (Nat × α)
  | [] => []
  | x :: xs => (n, x) :: withIdx (n + 1) xs

/-- Insertion step of a stable insertion sort. -/
def insertSorted (le : α → α → Bool) (x : α) : List α → List α
  | [] => [x]
  | y :: ys => if le x y then x :: y :: ys else y :: insertSorted le x ys

/-- Stable insertion sort by a boolean comparison. -/
def sortBy (le : α → α → Bool) : List α → List α
  | [] => []
  | x :: xs => insertSorted le x (sortBy le xs)

/-- Modelled from the spec: the Vector Index `query` / Retriever contract
(§4.4–§4.5), standing in for `FAISS.from_texts(...).as_retriever()`
which is library code absent from `src/`.  The query and every stored
chunk are embedded by the (opaque) embedding function `emb`; the `k`
chunks with smallest distance to the query vector are returned, ties
broken by original chunk index ascending. -/
def retrieve (emb : List Char → List Int) (store : List (List Char))
    (q : List Char) (k : Nat) : List (List Char) :=
  let qv := emb q
  let ranked := sortBy (fun a b =>
      let da := sqDist (emb a.2) qv
      let db := sqDist (emb b.2) qv
      decide (da < db ∨ (da = db ∧ a.1 ≤ b.1))) (withIdx 0 store)
  (ranked.map (fun p => p.2)).take k

/-! ## Python exceptions and the Groq completion client -/

/-- The Python exception classes raised by the embedded modules.
`valueError` plays the spec's `AuthenticationError` / `NoActiveIndexError`
/ `UnsupportedFormat`-carrier roles, `connectionError` its
`ConnectionError` (and, in the code, also the rate-limit path),
`runtimeError` its `ApiStatusError` / extraction-failure carrier, and
`keyError` the `str.format` missing-field failure. -/
inductive PyError where
  | valueError (msg : String)
  | connectionError (msg : String)
  | runtimeError (msg : String)
  | keyError (msg : String)
  deriving DecidableEq, Repr

/-- The possible outcomes of one call to the hosted Groq
chat-completions endpoint, as observed by the `try`/`except` block of
`_call_groq_api` (`modules/llm_handler.py`).  The endpoint itself is an
opaque network service; this type is its request/response interface. -/
inductive ApiOutcome where
  | success (content : Option String)
  | rateLimit
  | authFailure
  | apiStatus (status : Int) (msg : String)
  | connectionFailure (cause : String)
  deriving DecidableEq, Repr

/-- `_get_groq_client` (`modules/llm_handler.py`): use the passed key or
fall back to the `GROQ_API_KEY` environment value; fail when neither is
set.  Returns the key the client is built with. -/
def get_groq_client (api_key envKey : String) : Except PyError String :=
  let client_api_key := if api_key = "" then envKey else api_key
  if client_api_key = "" then
    .error (.valueError "Groq API Key not found. Please set a GROQ_API_KEY environment variable.")
  else
    .ok client_api_key

/-- The message of the `ConnectionError` that `_call_groq_api` raises on
a Groq rate-limit condition. -/
def rateLimitMsg : String := "Groq rate limit exceeded. Please check your plan."

/-- `_call_groq_api` (`modules/llm_handler.py`): build the client, make
the chat-completions call, and translate each failure of the Groq SDK
into a built-in Python exception.  On success the completion body is
stripped of surrounding whitespace, a falsy (missing or empty) body
yielding the empty string. -/
def call_groq_api (api_key envKey : String) (outcome : ApiOutcome) :
    Except PyError String :=
  match get_groq_client api_key envKey with
  | .error e => .error e
  | .ok _client =>
    match outcome with
    | .success content =>
      .ok (match content with
        | none => ""
        | some c => if c = "" then "" else pyStrip c)
    | .rateLimit => .error (.connectionError rateLimitMsg)
    | .authFailure => .error (.valueError "Authentication failed. Please check your Groq API key.")
    | .apiStatus status msg =>
      .error (.runtimeError ("Groq API Error: " ++ toString status ++ " - " ++ msg))
    | .connectionFailure cause =>
      .error (.connectionError ("Failed to connect to Groq API: " ++ cause))

/-- Whether a call result failed with Python's built-in
`ConnectionError` class. -/
def errorIsConnectionError : Except PyError String → Bool
  | .error (.connectionError _) => true
  | _ => false

/-! ## Python `str.format` and the prompt templates -/

/-- The opening template-delimiter character of Python `str.format`. -/
def braceOpen : Char := Char.ofNat 123

/-- The closing template-delimiter character of Python `str.format`. -/
def braceClose : Char := Char.ofNat 125

/-- Keyword-argument lookup for `str.format(name=value, ...)`. -/
def envLookup (k : String) : List (String × String) → Option String
  | [] => none
  | (k', v) :: rest => if k = k' then some v else envLookup k rest

/-- The scanning state of the one-pass `str.format` parser: between
fields, just after an opening brace, inside a field name (accumulated in
reverse), or just after a closing brace. -/
inductive FmtMode where
  | normal
  | sawOpen
  | field (acc : List Char)
  | sawClose
  deriving DecidableEq, Repr

/-- One left-to-right pass of Python `str.format` over the template's
characters.  Ordinary characters are copied, `\x7b\x7b` / `\x7d\x7d` are
unescaped, a lone closing brace or an unterminated field is an error,
and inside a field the name is read up to the closing brace and replaced
by the looked-up value (a missing keyword is an error).  Crucially — as
in Python — replacement values are spliced in verbatim and never
rescanned for template syntax. -/
def pyFmtGo (env : List (String × String)) (mode : FmtMode) :
    List Char → Option (List Char)
  | [] =>
    match mode with
    | .normal => some []
    | _ => none
  | c :: cs =>
    match mode with
    | .normal =>
      if c = braceOpen then pyFmtGo env .sawOpen cs
      else if c = braceClose then pyFmtGo env .sawClose cs
      else (pyFmtGo env .normal cs).map (fun r => c :: r)
    | .sawOpen =>
      if c = braceOpen then (pyFmtGo env .normal cs).map (fun r => braceOpen :: r)
      else if c = braceClose then
        match envLookup "" env with
        | some v => (pyFmtGo env .normal cs).map (fun r => v.data ++ r)
        | none => none
      else pyFmtGo env (.field [c]) cs
    | .field acc =>
      if c = braceClose then
        match envLookup (String.mk acc.reverse) env with
        | some v => (pyFmtGo env .normal cs).map (fun r => v.data ++ r)
        | none => none
      else if c = braceOpen then none
      else pyFmtGo env (.field (c :: acc)) cs
    | .sawClose =>
      if c = braceClose then (pyFmtGo env .normal cs).map (fun r => braceClose :: r)
      else none

/-- Python `template.format(**env)`: `none` models the `KeyError` /
`ValueError` raised on a malformed template or missing keyword. -/
def pyFormat (env : List (String × String)) (template : String) : Option String :=
  (pyFmtGo env .normal template.data).map String.mk

/-- `CONTEXTUAL_SYSTEM_PROMPT` (`modules/llm_handler.py`), the system
prompt used when a schema is present; its only replacement field is
`\x7bschema\x7d`. -/
def CONTEXTUAL_SYSTEM_PROMPT : String :=
  "\nYou are a highly intelligent assistant with two primary functions: acting as an expert Amazon Athena SQL writer and as a general conversationalist. Your behavior is determined by the user\x27s request and the context provided.\n\n**CONTEXT:**\n1.  **Conversation History:** The user\x27s past messages are provided for context.\n2.  **Database Schema:** The following Amazon Athena schema is available for you to use.\n\n\x60\x60\x60sql\n{schema}\n\x60\x60\x60\n\n**YOUR TASK:**\n-   Analyze the user\x27s latest prompt within the context of the conversation.\n-   **If the prompt is a question that can be answered using the provided SQL schema, you MUST:**\n    1.  Start your response with a friendly sentence, like \"Of course, here is the Athena SQL query for your request:\".\n    2.  Generate the correct and efficient Amazon Athena (Presto SQL) query.\n    3.  Wrap the SQL query in a markdown block like this: \x60\x60\x60sql\\n[YOUR QUERY HERE]\\n\x60\x60\x60.\n-   **If the prompt is a general question, a greeting, or unrelated to the schema, you MUST:**\n    1.  Respond as a friendly and helpful conversational assistant.\n    2.  Do NOT generate SQL or mention the schema unless the user asks about it.\n-   **If the user asks for SQL but the schema is empty, you MUST:**\n    1. Politely ask them to provide the schema in the sidebar first.\n"

/-- `GENERAL_SYSTEM_PROMPT` (`modules/llm_handler.py`), the system prompt
used when no schema is present; it has no replacement field. -/
def GENERAL_SYSTEM_PROMPT : String :=
  "You are a helpful and friendly conversational assistant. If the user asks for an SQL query, you MUST politely ask them to provide a database schema in the application\x27s sidebar first."

/-- `PROMPT_TEMPLATE` (`config.py`), the SQL-generation prompt of the
plain app path; its replacement fields are `\x7bschema\x7d` and
`\x7bquestion\x7d`. -/
def PROMPT_TEMPLATE : String :=
  "\nBased on the Amazon Athena table schema below, write a compatible SQL query that answers the user\x27s question.\n\n**Instructions:**\n1.  Your response must be ONLY the SQL query. Do not include any explanations, comments, or markdown formatting like \x60\x60\x60sql.\n2.  Ensure the SQL syntax is specifically for **Amazon Athena (Presto SQL)**.\n3.  Pay close attention to data types and column names from the provided schema.\n\n**Schema:**\n\x60\x60\x60sql\n{schema}\n\x60\x60\x60\n\n**User\x27s Question:**\n\"{question}\"\n\n**SQL Query:**\n"

/-- The part of `CONTEXTUAL_SYSTEM_PROMPT` before its `schema` field. -/
def ctxPre : String := ⟨CONTEXTUAL_SYSTEM_PROMPT.data.takeWhile (fun c => c ≠ braceOpen)⟩

/-- The part of `CONTEXTUAL_SYSTEM_PROMPT` after its `schema` field. -/
def ctxPost : String :=
  ⟨(CONTEXTUAL_SYSTEM_PROMPT.data.dropWhile (fun c => c ≠ braceOpen)).drop 8⟩

/-- The part of `PROMPT_TEMPLATE` before its `schema` field. -/
def tplPre : String := ⟨PROMPT_TEMPLATE.data.takeWhile (fun c => c ≠ braceOpen)⟩

/-- The part of `PROMPT_TEMPLATE` between its `schema` and `question`
fields. -/
def tplMid : String :=
  ⟨((PROMPT_TEMPLATE.data.dropWhile (fun c => c ≠ braceOpen)).drop 8).takeWhile
    (fun c => c ≠ braceOpen)⟩

/-- The part of `PROMPT_TEMPLATE` after its `question` field. -/
def tplPost : String :=
  ⟨(((PROMPT_TEMPLATE.data.dropWhile (fun c => c ≠ braceOpen)).drop 8).dropWhile
    (fun c => c ≠ braceOpen)).drop 10⟩

/-! ## Conversation turns, intent prompts, and history formatting -/

/-- A chat message dictionary `{"role": ..., "content": ...}`. -/
structure Msg where
  role : String
  content : String
  deriving DecidableEq, Repr

/-- The message list built by `get_intelligent_response`
(`modules/llm_handler.py`): when the schema is truthy and non-blank, the
contextual system prompt is formatted with the schema and prepended to
the history (previous `system` turns filtered out); otherwise the fixed
general prompt is used.  `none` models a `str.format` failure. -/
def buildIntelligentMessages (chat_history : List Msg) (schema : String) :
    Option (List Msg) :=
  if pyStrip schema ≠ "" then
    (pyFormat [("schema", schema)] CONTEXTUAL_SYSTEM_PROMPT).map (fun sys =>
      ⟨"system", sys⟩ :: chat_history.filter (fun m => m.role != "system"))
  else
    some (⟨"system", GENERAL_SYSTEM_PROMPT⟩ ::
      chat_history.filter (fun m => m.role != "system"))

/-- `get_intelligent_response` (`modules/llm_handler.py`): assemble the
messages and call the Groq API. -/
def get_intelligent_response (chat_history : List Msg)
    (schema api_key envKey : String) (outcome : ApiOutcome) :
    Except PyError String :=
  match buildIntelligentMessages chat_history schema with
  | none => .error (.keyError "unexpected replacement field in prompt template")
  | some _messages => call_groq_api api_key envKey outcome

/-- The full prompt built by `app.py` for an SQL request:
`PROMPT_TEMPLATE.format(schema=schema_text, question=prompt)`. -/
def app_full_prompt (schema_text prompt : String) : Option String :=
  pyFormat [("schema", schema_text), ("question", prompt)] PROMPT_TEMPLATE

/-- One turn as rendered by `format_history` inside `get_rag_response`
(`modules/rag_handler.py`): `f"\x7bmsg[role].capitalize()\x7d: \x7bmsg[content]\x7d"`. -/
def renderTurn (m : Msg) : String := pyCapitalize m.role ++ ": " ++ m.content

/-- `format_history` inside `get_rag_response` (`modules/rag_handler.py`):
the fixed placeholder for an empty history, otherwise the rendered turns
joined by single newlines. -/
def format_history (messages : List Msg) : String :=
  if messages = [] then "No conversation history."
  else String.intercalate "\n" (messages.map renderTurn)

/-! ## Content extraction -/

/-- Whether a byte is a UTF-8 continuation byte. -/
def utf8Cont (b : Nat) : Bool := 0x80 ≤ b && b < 0xC0

/-- A strict UTF-8 decoder over bytes, producing the code points
(Python `bytes.decode("utf-8")`): rejects continuation bytes in lead
position, overlong encodings, surrogates and out-of-range code points. -/
def utf8Decode : List Nat → Option (List Nat)
  | [] => some []
  | b :: bs =>
    if b < 0x80 then (utf8Decode bs).map (fun r => b :: r)
    else if b < 0xC2 then none
    else if b < 0xE0 then
      match bs with
      | b1 :: bs' =>
        if utf8Cont b1 then
          (utf8Decode bs').map (fun r => ((b - 0xC0) * 0x40 + (b1 - 0x80)) :: r)
        else none
      | [] => none
    else if b < 0xF0 then
      match bs with
      | b1 :: b2 :: bs' =>
        if utf8Cont b1 && utf8Cont b2 then
          let cp := (b - 0xE0) * 0x1000 + (b1 - 0x80) * 0x40 + (b2 - 0x80)
          if cp < 0x800 || (0xD800 ≤ cp && cp < 0xE000) then none
          else (utf8Decode bs').map (fun r => cp :: r)
        else none
      | _ => none
    else if b < 0xF5 then
      match bs with
      | b1 :: b2 :: b3 :: bs' =>
        if utf8Cont b1 && utf8Cont b2 && utf8Cont b3 then
          let cp := (b - 0xF0) * 0x40000 + (b1 - 0x80) * 0x1000 +
            (b2 - 0x80) * 0x40 + (b3 - 0x80)
          if cp < 0x10000 || 0x110000 ≤ cp then none
          else (utf8Decode bs').map (fun r => cp :: r)
        else none
      | _ => none
    else none

/-- `bytes.decode("utf-8")` as a `String`. -/
def decodeUtf8String (bs : List Nat) : Option String :=
  (utf8Decode bs).map (fun cps => ⟨cps.map Char.ofNat⟩)

/-- A representative rendering of the `UnicodeDecodeError` message text
embedded by `_load_and_process_file`'s exception wrapper (the exact
position/byte details of CPython's message are interpreter output, not
repository behaviour). -/
def utf8CodecMsg : String :=
  "\x27utf-8\x27 codec can\x27t decode bytes in the uploaded file"

/-- The `RuntimeError(f"Failed to read or process file: \x7be\x7d")` wrapper of
`_load_and_process_file` (`modules/rag_handler.py`). -/
def fileError (inner : String) : PyError :=
  .runtimeError ("Failed to read or process file: " ++ inner)

/-- `pandas` `Series.dropna()`: the non-null cell values, in row order. -/
def dropna (cells : List (Option String)) : List String := cells.filterMap id

/-- One iteration of the column loop in `_load_and_process_file`
(`modules/rag_handler.py`): write the `Table/Sheet Name` header line, the
fixed `  Columns:` line, one `    - value` line per non-null cell, and a
blank separator line into the output buffer. -/
def writeColumn (acc : List Char) (col : String × List (Option String)) : List Char :=
  let acc := acc ++ ("- Table/Sheet Name: \x27".data ++ col.1.data ++ "\x27\n".data)
  let acc := acc ++ "  Columns:\n".data
  let acc := (dropna col.2).foldl
    (fun a item => a ++ ("    - ".data ++ item.data ++ "\n".data)) acc
  acc ++ "\n".data

/-- The tabular serialization loop of `_load_and_process_file`
(`modules/rag_handler.py`): iterate the dataframe's columns in file
order, writing each column's block into a string buffer. -/
def load_and_process_tabular (df : List (String × List (Option String))) : List Char :=
  df.foldl writeColumn []

/-- The header line written for a column. -/
def headerLine (name : String) : List Char :=
  "- Table/Sheet Name: \x27".data ++ name.data ++ "\x27".data

/-- The fixed sub-header line written after each column's header. -/
def columnsLine : List Char := "  Columns:".data

/-- The line written for one non-null cell value. -/
def valueLine (v : String) : List Char := "    - ".data ++ v.data

/-- The lines of one column's block in the serialized tabular output:
header line, fixed `  Columns:` line, one value line per non-null cell
in row order, and a blank separator line. -/
def columnLines (col : String × List (Option String)) : List (List Char) :=
  headerLine col.1 :: columnsLine :: ((dropna col.2).map valueLine ++ [[]])

/-- Appending a trailing newline to every line and concatenating. -/
def joinNl (lines : List (List Char)) : List Char :=
  (lines.map (fun l => l ++ ['\n'])).flatten

/-- The media type of spreadsheet uploads accepted by
`_load_and_process_file`. -/
def xlsxType : String := "application/vnd.openxmlformats-officedocument.spreadsheetml.sheet"

/-- An uploaded file as observed by `_load_and_process_file`: the
declared media type, the raw bytes (the payload of the `text/plain`
path), and — modelled from the spec, since `pandas.read_csv` /
`pandas.read_excel` are library code absent from `src/` — the parsed
table as a list of (column name, cells in row order) pairs for the
tabular paths. -/
structure UploadedFile where
  ftype : String
  rawBytes : List Nat
  tableData : List (String × List (Option String))
  deriving DecidableEq, Repr

/-- `_load_and_process_file` (`modules/rag_handler.py`): decode
`text/plain` uploads as UTF-8, serialize `text/csv` and spreadsheet
uploads column by column, and reject any other media type.  Every
failure inside the `try` block is re-raised as the single `RuntimeError`
wrapper `fileError`. -/
def load_and_process_file (f : UploadedFile) : Except PyError String :=
  if f.ftype = "text/plain" then
    match decodeUtf8String f.rawBytes with
    | some s => .ok s
    | none => .error (fileError utf8CodecMsg)
  else if f.ftype = "text/csv" then
    .ok ⟨load_and_process_tabular f.tableData⟩
  else if f.ftype = xlsxType then
    .ok ⟨load_and_process_tabular f.tableData⟩
  else
    .error (fileError ("Unsupported file type: " ++ f.ftype))

/-- Whether an extraction result is the `UnsupportedFormat` failure (the
wrapped `ValueError(f"Unsupported file type: ...")`). -/
def isUnsupportedResult (r : Except PyError String) : Prop :=
  ∃ t, r = .error (fileError ("Unsupported file type: " ++ t))

/-! ## The RAG session controller -/

/-- The state held by a built RAG chain: the chunk texts stored in the
vector index (`FAISS.from_texts(texts=chunks, ...)`).  The downstream
pieces of the chain — the retriever over this store, the prompt and the
completion call — are reconstructed at query time from this store
together with the opaque embedding function and API outcome, because
`get_llm_chain` is imported by `rag_handler.py` but absent from `src/`
(its prompt assembly is the spec's §4.6). -/
structure RAGChain where
  chunks : List (List Char)
  deriving DecidableEq, Repr

/-- The `RAGHandler` object (`modules/rag_handler.py`): API credentials,
model id, and the `rag_chain` field that is `None` until a successful
setup. -/
structure RAGHandler where
  api_key : String
  model : String
  rag_chain : Option RAGChain
  deriving DecidableEq, Repr

/-- `_create_rag_chain_from_content` (`modules/rag_handler.py`): split
the content into chunks, raise `ValueError` when no chunks could be
extracted, otherwise build the vector store from the chunks and assign
the assembled chain to `self.rag_chain` as the final step. -/
def create_rag_chain_from_content (h : RAGHandler) (content : String) :
    Except PyError RAGHandler :=
  let chunks := split_text 1000 200 content.data
  if chunks = [] then
    .error (.valueError "Could not extract any text chunks from the provided content.")
  else
    .ok { h with rag_chain := some ⟨chunks⟩ }

/-- `setup_rag_from_text` (`modules/rag_handler.py`). -/
def setup_rag_from_text (h : RAGHandler) (text_content : String) :
    Except PyError RAGHandler :=
  create_rag_chain_from_content h text_content

/-- `setup_rag_from_file` (`modules/rag_handler.py`): extract the file's
content, then build the chain from it. -/
def setup_rag_from_file (h : RAGHandler) (uploaded_file : UploadedFile) :
    Except PyError RAGHandler :=
  match load_and_process_file uploaded_file with
  | .error e => .error e
  | .ok file_content => create_rag_chain_from_content h file_content

/-- A text `setup` call with Python exception semantics made explicit:
on failure the exception propagates and the object is left exactly as it
was (no assignment precedes the failure point). -/
def setup_step (h : RAGHandler) (text : String) : RAGHandler × Option PyError :=
  match setup_rag_from_text h text with
  | .ok h' => (h', none)
  | .error e => (h, some e)

/-- A file `setup` call with Python exception semantics made explicit. -/
def setup_file_step (h : RAGHandler) (f : UploadedFile) :
    RAGHandler × Option PyError :=
  match setup_rag_from_file h f with
  | .ok h' => (h', none)
  | .error e => (h, some e)

/-- The `ValueError` raised by `get_rag_response` when no chain has been
built: the code's realization of the spec's `NoActiveIndexError`. -/
def noActiveIndexError : PyError :=
  .valueError "RAG chain is not initialized. Please process a schema first."

deriving instance DecidableEq for Except

/-- Everything observable about one `get_rag_response` call: the handler
state and conversation history afterwards (the method mutates neither),
the returned value or raised exception, the retrieved context chunks,
the formatted history string passed into the chain input, and whether
retrieval / the completion client were reached at all. -/
structure RAGResult where
  state : RAGHandler
  history : List Msg
  result : Except PyError String
  context : List (List Char)
  historyInput : Option String
  retrieved : Bool
  llmCalled : Bool
  deriving DecidableEq, Repr

/-- `get_rag_response` (`modules/rag_handler.py`): raise
`noActiveIndexError` when `self.rag_chain` is falsy, without formatting
the history, retrieving, or invoking the completion client; otherwise
format the history, invoke the chain — which retrieves the top chunks
for the question from the vector store and calls the Groq API — and
return the parsed text.  The embedding function, environment key and API
outcome parameterize the two opaque external services. -/
def get_rag_response (emb : List Char → List Int) (envKey : String)
    (h : RAGHandler) (question : String) (chat_history : List Msg)
    (outcome : ApiOutcome) : RAGResult :=
  match h.rag_chain with
  | none => ⟨h, chat_history, .error noActiveIndexError, [], none, false, false⟩
  | some chain =>
    let formatted_history := format_history chat_history
    let context := retrieve emb chain.chunks question.data 4
    ⟨h, chat_history, call_groq_api h.api_key envKey outcome, context,
      some formatted_history, true, true⟩

/-! ## The claimed tabular serialization shape (C5, as stated) -/

/-- The block of lines claim C5 says the Content Extractor emits for one
column: a (single) header line naming the column, then exactly one line
per non-null cell value of that column in row order (each containing
that value), followed by a blank separator line. -/
def ClaimedColumnBlock (col : String × List (Option String))
    (block : List (List Char)) : Prop :=
  ∃ hline vlines, block = hline :: (vlines ++ [[]]) ∧
    col.1.data <:+: hline ∧
    vlines.length = (dropna col.2).length ∧
    ∀ i (hv : i < vlines.length) (hd : i < (dropna col.2).length),
      ((dropna col.2).get ⟨i, hd⟩).data <:+: vlines.get ⟨i, hv⟩

/-- Claim C5's stated shape for the whole tabular serialization: the
output's lines are exactly the concatenation of one such block per
declared column, in file order (allowing a final empty piece from a
trailing newline). -/
def C5Claim (df : List (String × List (Option String))) : Prop :=
  ∃ blocks : List (List (List Char)),
    blocks.length = df.length ∧
    (∀ i (hb : i < blocks.length) (hd : i < df.length),
      ClaimedColumnBlock (df.get ⟨i, hd⟩) (blocks.get ⟨i, hb⟩)) ∧
    (splitSep '\n' (load_and_process_tabular df) = blocks.flatten ∨
     splitSep '\n' (load_and_process_tabular df) = blocks.flatten ++ [[]])

/-! # Theorems -/

/-! ## String and splitting lemmas -/

theorem pyStrip_empty : pyStrip "" = "" := rfl

theorem strData_append (a b : String) : (a ++ b).data = a.data ++ b.data := by
  cases a; cases b; rfl

theorem strExt {a b : String} (h : a.data = b.data) : a = b :=
  congrArg String.mk h

theorem splitSep_ne_nil (sep : Char) (l : List Char) : splitSep sep l ≠ [] := by
  induction l with
  | nil => simp [splitSep]
  | cons c cs ih =>
    by_cases hc : c = sep
    · simp [splitSep, hc]
    · simp only [splitSep, if_neg hc]
      cases h : splitSep sep cs with
      | nil => simp
      | cons p ps => simp

theorem joinParts_cons_of_ne_nil (sep : Char) (parts : List (List Char))
    (h : parts ≠ []) : (parts.map (fun q => sep :: q)).flatten =
      sep :: joinParts sep parts := by
  cases parts with
  | nil => exact absurd rfl h
  | cons p ps => simp [joinParts]

theorem splitSep_reconstruct (sep : Char) (l : List Char) :
    joinParts sep (splitSep sep l) = l := by
  induction l with
  | nil => simp [splitSep, joinParts]
  | cons c cs ih =>
    by_cases hc : c = sep
    · simp only [splitSep, if_pos hc, joinParts, List.nil_append]
      rw [joinParts_cons_of_ne_nil sep _ (splitSep_ne_nil sep cs), ih, hc]
    · simp only [splitSep, if_neg hc]
      cases h : splitSep sep cs with
      | nil => exact absurd h (splitSep_ne_nil sep cs)
      | cons p ps =>
        rw [h] at ih
        simp only [joinParts, List.cons_append] at ih ⊢
        rw [ih]

theorem splitSep_sepfree_append (sep : Char) (a b : List Char)
    (ha : sep ∉ a) : splitSep sep (a ++ sep :: b) = a :: splitSep sep b := by
  induction a with
  | nil => simp [splitSep]
  | cons c cs ih =>
    have hc : c ≠ sep := fun h => ha (by simp [h])
    have hcs : sep ∉ cs := fun h => ha (by simp [h])
    rw [List.cons_append]
    simp only [splitSep, if_neg hc]
    rw [ih hcs]

/-! ## Chunker lemmas -/

theorem split_text_empty (maxSize overlap : Nat) :
    split_text maxSize overlap [] = [] := rfl

/-- Every chunk produced by the accumulation loop is a contiguous segment
of the original text: the invariant is that the running buffer is a
suffix of the prefix of the text consumed so far. -/
theorem chunk_go_infix (maxSize overlap : Nat) (text : List Char) :
    ∀ (ps : List (List Char)) (buf pre rest : List Char),
      (∃ u, u ++ buf = pre) →
      text = pre ++ rest →
      rest = (ps.map (fun p => '\n' :: p)).flatten →
      ∀ c ∈ chunk_go maxSize overlap buf ps, ∃ s t, s ++ c ++ t = text := by
  intro ps
  induction ps with
  | nil =>
    rintro buf pre rest ⟨u, hu⟩ htext _hrest c hc
    simp only [chunk_go, List.mem_singleton] at hc
    subst hc
    refine ⟨u, rest, ?_⟩
    rw [htext, ← hu]
  | cons p ps ih =>
    rintro buf pre rest ⟨u, hu⟩ htext hrest c hc
    simp only [List.map_cons, List.flatten_cons] at hrest
    simp only [chunk_go] at hc
    by_cases hover : maxSize < buf.length + 1 + p.length
    · rw [if_pos hover] at hc
      rcases List.mem_cons.mp hc with hceq | hcmem
      · subst hceq
        refine ⟨u, rest, ?_⟩
        rw [htext, ← hu]
      · refine ih (takeRight overlap buf ++ '\n' :: p) (pre ++ '\n' :: p)
          ((ps.map (fun q => '\n' :: q)).flatten) ?_ ?_ rfl c hcmem
        · refine ⟨u ++ buf.take (buf.length - overlap), ?_⟩
          have : buf.take (buf.length - overlap) ++ takeRight overlap buf = buf := by
            simp [takeRight]
          rw [List.append_assoc, ← List.append_assoc (buf.take (buf.length - overlap)),
            this, ← List.append_assoc, hu]
        · rw [htext, hrest]
          simp
    · rw [if_neg hover] at hc
      refine ih (buf ++ '\n' :: p) (pre ++ '\n' :: p)
        ((ps.map (fun q => '\n' :: q)).flatten) ?_ ?_ rfl c hc
      · exact ⟨u, by rw [← List.append_assoc, hu]⟩
      · rw [htext, hrest]
        simp

/-- Every chunk produced by the Chunker is a contiguous segment of the
input text (chunks never contain characters in an order that does not
occur in the source document). -/
theorem split_text_infix (maxSize overlap : Nat) (text : List Char) :
    ∀ c ∈ split_text maxSize overlap text, c <:+: text := by
  intro c hc
  unfold split_text at hc
  cases hsplit : splitSep '\n' text with
  | nil => exact absurd hsplit (splitSep_ne_nil '\n' text)
  | cons p ps =>
    rw [hsplit] at hc
    simp only [splitAux] at hc
    by_cases hws : (p :: ps).all (fun q => q.all isPyWs)
    · rw [if_pos hws] at hc
      simp at hc
    · rw [if_neg hws] at hc
      have hrec : text = p ++ (ps.map fun q => '\n' :: q).flatten := by
        have := splitSep_reconstruct '\n' text
        rw [hsplit] at this
        simpa [joinParts] using this.symm
      obtain ⟨s, t, hst⟩ :=
        chunk_go_infix maxSize overlap text ps p p
          ((ps.map fun q => '\n' :: q).flatten) ⟨[], by simp⟩ hrec rfl c hc
      exact ⟨s, t, hst⟩

/-! ## Retrieval lemmas -/

theorem mem_insertSorted (le : α → α → Bool) (x a : α) (l : List α)
    (h : x ∈ insertSorted le a l) : x = a ∨ x ∈ l := by
  induction l with
  | nil => simpa [insertSorted] using h
  | cons y ys ih =>
    simp only [insertSorted] at h
    by_cases hle : le a y
    · rw [if_pos hle] at h
      simpa using h
    · rw [if_neg hle] at h
      rcases List.mem_cons.mp h with h1 | h2
      · exact Or.inr (by simp [h1])
      · rcases ih h2 with h3 | h4
        · exact Or.inl h3
        · exact Or.inr (by simp [h4])

theorem mem_sortBy (le : α → α → Bool) (x : α) (l : List α)
    (h : x ∈ sortBy le l) : x ∈ l := by
  induction l with
  | nil => simp [sortBy] at h
  | cons y ys ih =>
    simp only [sortBy] at h
    rcases mem_insertSorted le x y (sortBy le ys) h with h1 | h2
    · simp [h1]
    · exact List.mem_cons_of_mem y (ih h2)

theorem mem_withIdx (p : Nat × α) (n : Nat) (l : List α)
    (h : p ∈ withIdx n l) : p.2 ∈ l := by
  induction l generalizing n with
  | nil => simp [withIdx] at h
  | cons x xs ih =>
    simp only [withIdx, List.mem_cons] at h
    rcases h with h1 | h2
    · simp [h1]
    · exact List.mem_cons_of_mem x (ih (n + 1) h2)

/-- Retrieval only ever returns chunks that are stored in the index. -/
theorem retrieve_subset (emb : List Char → List Int) (store : List (List Char))
    (q : List Char) (k : Nat) :
    ∀ ch ∈ retrieve emb store q k, ch ∈ store := by
  intro ch hch
  unfold retrieve at hch
  have h1 := List.take_subset _ _ hch
  obtain ⟨p, hp, hpe⟩ := List.mem_map.mp h1
  have h2 := mem_sortBy _ p _ hp
  have h3 := mem_withIdx p 0 store h2
  rw [hpe] at h3
  exact h3

/-! ## `str.format` lemmas -/

theorem pyFmtGo_normal_open (env : List (String × String)) (cs : List Char) :
    pyFmtGo env .normal (braceOpen :: cs) = pyFmtGo env .sawOpen cs := by
  simp [pyFmtGo]

theorem pyFmtGo_normal_char (env : List (String × String)) (c : Char)
    (cs : List Char) (h1 : c ≠ braceOpen) (h2 : c ≠ braceClose) :
    pyFmtGo env .normal (c :: cs) =
      (pyFmtGo env .normal cs).map (fun r => c :: r) := by
  simp [pyFmtGo, h1, h2]

theorem pyFmtGo_sawOpen_char (env : List (String × String)) (c : Char)
    (cs : List Char) (h1 : c ≠ braceOpen) (h2 : c ≠ braceClose) :
    pyFmtGo env .sawOpen (c :: cs) = pyFmtGo env (.field [c]) cs := by
  simp [pyFmtGo, h1, h2]

theorem pyFmtGo_sawOpen_close (env : List (String × String)) (cs : List Char) :
    pyFmtGo env .sawOpen (braceClose :: cs) =
      match envLookup "" env with
      | some v => (pyFmtGo env .normal cs).map (fun r => v.data ++ r)
      | none => none := by
  have h1 : braceClose ≠ braceOpen := by decide
  simp [pyFmtGo, h1]

theorem pyFmtGo_field_close (env : List (String × String)) (acc cs : List Char) :
    pyFmtGo env (.field acc) (braceClose :: cs) =
      match envLookup (String.mk acc.reverse) env with
      | some v => (pyFmtGo env .normal cs).map (fun r => v.data ++ r)
      | none => none := by
  simp [pyFmtGo]

theorem pyFmtGo_field_char (env : List (String × String)) (c : Char)
    (acc cs : List Char) (h1 : c ≠ braceOpen) (h2 : c ≠ braceClose) :
    pyFmtGo env (.field acc) (c :: cs) = pyFmtGo env (.field (c :: acc)) cs := by
  simp [pyFmtGo, h1, h2]

theorem pyFmtGo_sepfree_append (env : List (String × String)) (a rest : List Char)
    (ha : a.all (fun c => c ≠ braceOpen && c ≠ braceClose) = true) :
    pyFmtGo env .normal (a ++ rest) =
      (pyFmtGo env .normal rest).map (fun r => a ++ r) := by
  induction a with
  | nil =>
    rw [List.nil_append]
    cases pyFmtGo env .normal rest <;> simp
  | cons c a ih =>
    simp only [List.all_cons, Bool.and_eq_true, decide_eq_true_eq] at ha
    obtain ⟨⟨hc1, hc2⟩, ha'⟩ := ha
    rw [List.cons_append, pyFmtGo_normal_char env c _ hc1 hc2, ih ha']
    cases pyFmtGo env .normal rest <;> simp

theorem pyFmtGo_sepfree (env : List (String × String)) (a : List Char)
    (ha : a.all (fun c => c ≠ braceOpen && c ≠ braceClose) = true) :
    pyFmtGo env .normal a = some a := by
  have h := pyFmtGo_sepfree_append env a [] ha
  rw [List.append_nil] at h
  simpa [pyFmtGo] using h

theorem pyFmtGo_field_run (env : List (String × String)) (name rest acc : List Char)
    (hn : name.all (fun c => c ≠ braceOpen && c ≠ braceClose) = true) :
    pyFmtGo env (.field acc) (name ++ braceClose :: rest) =
      match envLookup (String.mk (acc.reverse ++ name)) env with
      | some v => (pyFmtGo env .normal rest).map (fun r => v.data ++ r)
      | none => none := by
  induction name generalizing acc with
  | nil =>
    rw [List.nil_append, pyFmtGo_field_close, List.append_nil]
  | cons c name ih =>
    simp only [List.all_cons, Bool.and_eq_true, decide_eq_true_eq] at hn
    obtain ⟨⟨hc1, hc2⟩, hn'⟩ := hn
    rw [List.cons_append, pyFmtGo_field_char env c acc _ hc1 hc2, ih (c :: acc) hn']
    have hrev : (c :: acc).reverse ++ name = acc.reverse ++ c :: name := by simp
    rw [hrev]

theorem pyFmtGo_openField (env : List (String × String)) (name rest : List Char)
    (hn : name.all (fun c => c ≠ braceOpen && c ≠ braceClose) = true) :
    pyFmtGo env .normal (braceOpen :: (name ++ braceClose :: rest)) =
      match envLookup (String.mk name) env with
      | some v => (pyFmtGo env .normal rest).map (fun r => v.data ++ r)
      | none => none := by
  rw [pyFmtGo_normal_open]
  cases name with
  | nil =>
    rw [List.nil_append, pyFmtGo_sawOpen_close]
  | cons c name' =>
    simp only [List.all_cons, Bool.and_eq_true, decide_eq_true_eq] at hn
    obtain ⟨⟨hc1, hc2⟩, hn'⟩ := hn
    rw [List.cons_append, pyFmtGo_sawOpen_char env c _ hc1 hc2,
      pyFmtGo_field_run env name' rest [c] hn']
    have hrev : ([c].reverse ++ name' : List Char) = c :: name' := by simp
    rw [hrev]

theorem pyFormat_single (env : List (String × String)) (a name b : List Char)
    (v : String)
    (ha : a.all (fun c => c ≠ braceOpen && c ≠ braceClose) = true)
    (hn : name.all (fun c => c ≠ braceOpen && c ≠ braceClose) = true)
    (hb : b.all (fun c => c ≠ braceOpen && c ≠ braceClose) = true)
    (hlk : envLookup (String.mk name) env = some v) :
    pyFmtGo env .normal (a ++ braceOpen :: (name ++ braceClose :: b)) =
      some (a ++ (v.data ++ b)) := by
  rw [pyFmtGo_sepfree_append env a _ ha, pyFmtGo_openField env name b hn, hlk,
    pyFmtGo_sepfree env b hb]
  rfl

theorem pyFormat_double (env : List (String × String)) (a n1 m n2 b : List Char)
    (v1 v2 : String)
    (ha : a.all (fun c => c ≠ braceOpen && c ≠ braceClose) = true)
    (hn1 : n1.all (fun c => c ≠ braceOpen && c ≠ braceClose) = true)
    (hm : m.all (fun c => c ≠ braceOpen && c ≠ braceClose) = true)
    (hn2 : n2.all (fun c => c ≠ braceOpen && c ≠ braceClose) = true)
    (hb : b.all (fun c => c ≠ braceOpen && c ≠ braceClose) = true)
    (hlk1 : envLookup (String.mk n1) env = some v1)
    (hlk2 : envLookup (String.mk n2) env = some v2) :
    pyFmtGo env .normal
      (a ++ braceOpen :: (n1 ++ braceClose ::
        (m ++ braceOpen :: (n2 ++ braceClose :: b)))) =
      some (a ++ (v1.data ++ (m ++ (v2.data ++ b)))) := by
  rw [pyFmtGo_sepfree_append env a _ ha, pyFmtGo_openField env n1 _ hn1, hlk1,
    pyFormat_single env m n2 b v2 hm hn2 hb hlk2]
  rfl

set_option maxRecDepth 10000

/-- Formatting `CONTEXTUAL_SYSTEM_PROMPT` with any schema value — braces
included — succeeds, splicing the schema verbatim between the two fixed
template halves. -/
theorem contextual_format (schema : String) :
    pyFormat [("schema", schema)] CONTEXTUAL_SYSTEM_PROMPT =
      some (ctxPre ++ schema ++ ctxPost) := by
  unfold pyFormat
  have hdec : CONTEXTUAL_SYSTEM_PROMPT.data =
      ctxPre.data ++ braceOpen :: ("schema".data ++ braceClose :: ctxPost.data) := rfl
  rw [hdec, pyFormat_single [("schema", schema)] ctxPre.data "schema".data
    ctxPost.data schema (by decide) (by decide) (by decide) rfl]
  have hdata : (ctxPre ++ schema ++ ctxPost).data =
      ctxPre.data ++ (schema.data ++ ctxPost.data) := by
    rw [strData_append, strData_append, List.append_assoc]
  exact congrArg some (strExt hdata.symm).symm

/-- Formatting `PROMPT_TEMPLATE` with any schema and question — braces
included — succeeds, splicing both verbatim between the three fixed
template pieces. -/
theorem prompt_template_format (schema question : String) :
    app_full_prompt schema question =
      some (tplPre ++ schema ++ tplMid ++ question ++ tplPost) := by
  unfold app_full_prompt pyFormat
  have hdec : PROMPT_TEMPLATE.data =
      tplPre.data ++ braceOpen :: ("schema".data ++ braceClose ::
        (tplMid.data ++ braceOpen :: ("question".data ++ braceClose ::
          tplPost.data))) := rfl
  rw [hdec, pyFormat_double [("schema", schema), ("question", question)]
    tplPre.data "schema".data tplMid.data "question".data tplPost.data
    schema question (by decide) (by decide) (by decide) (by decide) (by decide)
    rfl rfl]
  have hdata : (tplPre ++ schema ++ tplMid ++ question ++ tplPost).data =
      tplPre.data ++ (schema.data ++ (tplMid.data ++ (question.data ++ tplPost.data))) := by
    rw [strData_append, strData_append, strData_append, strData_append]
    simp [List.append_assoc]
  exact congrArg some (strExt hdata.symm)

/-! ## Tabular serialization lemmas -/

theorem splitSep_joinNl (lines : List (List Char))
    (h : ∀ l ∈ lines, '\n' ∉ l) :
    splitSep '\n' (joinNl lines) = lines ++ [[]] := by
  induction lines with
  | nil => simp [joinNl, splitSep]
  | cons l ls ih =>
    have hl : '\n' ∉ l := h l (by simp)
    have hls : ∀ x ∈ ls, '\n' ∉ x := fun x hx => h x (by simp [hx])
    have hjoin : joinNl (l :: ls) = l ++ '\n' :: joinNl ls := by
      simp [joinNl]
    rw [hjoin, splitSep_sepfree_append '\n' l _ hl, ih hls]
    rfl

theorem valueFold (vs : List String) (acc : List Char) :
    vs.foldl (fun a item => a ++ ("    - ".data ++ item.data ++ "\n".data)) acc =
      acc ++ joinNl (vs.map valueLine) := by
  induction vs generalizing acc with
  | nil => simp [joinNl]
  | cons v vs ih =>
    rw [List.foldl_cons, ih]
    simp [joinNl, valueLine, List.append_assoc]

theorem writeColumn_eq (acc : List Char) (col : String × List (Option String)) :
    writeColumn acc col = acc ++ joinNl (columnLines col) := by
  simp only [writeColumn]
  rw [valueFold]
  have h1 : ("\x27\n".data : List Char) = "\x27".data ++ ['\n'] := rfl
  have h2 : ("  Columns:\n".data : List Char) = columnsLine ++ ['\n'] := rfl
  have h3 : ("\n".data : List Char) = ['\n'] := rfl
  simp [joinNl, columnLines, headerLine, columnsLine, h1, h3, List.append_assoc]

theorem load_tabular_eq (df : List (String × List (Option String))) :
    ∀ acc, df.foldl writeColumn acc = acc ++ joinNl ((df.map columnLines).flatten) := by
  induction df with
  | nil => intro acc; simp [joinNl]
  | cons col df ih =>
    intro acc
    rw [List.foldl_cons, writeColumn_eq, ih]
    simp [joinNl, List.append_assoc]

/-- The full line structure of the serialized tabular output, provided
no column name or cell value contains a newline: one block per declared
column, in file order, each block being the header line, the fixed
`  Columns:` line, one value line per non-null cell in row order, and a
blank separator line (with a final empty piece from the trailing
newline). -/
theorem load_and_process_tabular_lines (df : List (String × List (Option String)))
    (hnl : ∀ col ∈ df, ('\n' ∉ col.1.data) ∧ ∀ v ∈ dropna col.2, '\n' ∉ v.data) :
    splitSep '\n' (load_and_process_tabular df) =
      (df.map columnLines).flatten ++ [[]] := by
  unfold load_and_process_tabular
  rw [load_tabular_eq df [], List.nil_append]
  apply splitSep_joinNl
  intro l hl
  rw [List.mem_flatten] at hl
  obtain ⟨b, hb, hlb⟩ := hl
  obtain ⟨col, hcol, rfl⟩ := List.mem_map.mp hb
  obtain ⟨h1, h2⟩ := hnl col hcol
  simp only [columnLines, List.mem_cons, List.mem_append, List.mem_map,
    List.mem_singleton] at hlb
  rcases hlb with rfl | rfl | ⟨v, hv, rfl⟩ | hrest
  · intro hmem
    simp only [headerLine, List.mem_append] at hmem
    rcases hmem with (hmem | hmem) | hmem
    · exact absurd hmem (by decide)
    · exact h1 hmem
    · exact absurd hmem (by decide)
  · exact (by decide : '\n' ∉ columnsLine)
  · intro hmem
    simp only [valueLine, List.mem_append] at hmem
    rcases hmem with hmem | hmem
    · exact absurd hmem (by decide)
    · exact h2 v hv hmem
  · rcases hrest with rfl | h0
    · simp
    · simp at h0

/-! ## Error-message distinguishability lemmas -/

theorem fileError_inj {a b : String} (h : fileError a = fileError b) : a = b := by
  unfold fileError at h
  injection h with h'
  have h2 := congrArg String.data h'
  rw [strData_append, strData_append] at h2
  exact strExt (List.append_cancel_left h2)

theorem utf8CodecMsg_ne_unsupported (t : String) :
    fileError utf8CodecMsg ≠ fileError ("Unsupported file type: " ++ t) := by
  intro h
  have h1 := fileError_inj h
  have h2 := congrArg String.data h1
  rw [strData_append] at h2
  have h3 := congrArg List.head? h2
  rw [show utf8CodecMsg.data.head? = some '\x27' from rfl] at h3
  rw [show (("Unsupported file type: ").data ++ t.data).head? = some 'U' from rfl] at h3
  simp at h3

theorem rateLimit_ne_transport (cause : String) :
    PyError.connectionError rateLimitMsg ≠
      PyError.connectionError ("Failed to connect to Groq API: " ++ cause) := by
  intro h
  injection h with h'
  have h2 := congrArg String.data h'
  rw [strData_append] at h2
  have h3 := congrArg List.head? h2
  rw [show rateLimitMsg.data.head? = some 'G' from rfl] at h3
  rw [show (("Failed to connect to Groq API: ").data ++ cause.data).head? = some 'F' from rfl] at h3
  simp at h3

/-! ## Session controller lemmas -/

theorem setup_step_ok_chain (h h' : RAGHandler) (text : String)
    (hs : setup_step h text = (h', none)) :
    h'.rag_chain = some ⟨split_text 1000 200 text.data⟩ := by
  unfold setup_step setup_rag_from_text at hs
  simp only [create_rag_chain_from_content] at hs
  by_cases hch : split_text 1000 200 text.data = []
  · rw [if_pos hch] at hs
    simp at hs
  · rw [if_neg hch] at hs
    have h1 := congrArg Prod.fst hs
    simp only at h1
    rw [← h1]

theorem get_rag_response_context (emb : List Char → List Int) (envKey : String)
    (h : RAGHandler) (question : String) (hist : List Msg) (outcome : ApiOutcome)
    (chain : RAGChain) (hc : h.rag_chain = some chain) :
    (get_rag_response emb envKey h question hist outcome).context =
      retrieve emb chain.chunks question.data 4 := by
  unfold get_rag_response
  rw [hc]

theorem call_groq_rateLimit (api_key envKey : String) (hk : api_key ≠ "") :
    call_groq_api api_key envKey .rateLimit =
      .error (.connectionError rateLimitMsg) := by
  unfold call_groq_api get_groq_client
  simp [hk]

/-! ## Claim theorems -/

/-- C3: for every question and history, calling `ask`/`query` while the
controller is Uninitialized (no successful setup has occurred) fails
with `NoActiveIndexError` — realized by the code as the `ValueError`
"RAG chain is not initialized. Please process a schema first." — without
attempting retrieval and without the Completion Client ever being
invoked. -/
theorem c3_uninitialized_ask_fails (emb : List Char → List Int) (envKey : String)
    (h : RAGHandler) (question : String) (hist : List Msg) (outcome : ApiOutcome)
    (h0 : h.rag_chain = none) :
    (get_rag_response emb envKey h question hist outcome).result =
        .error noActiveIndexError ∧
      (get_rag_response emb envKey h question hist outcome).retrieved = false ∧
      (get_rag_response emb envKey h question hist outcome).llmCalled = false ∧
      (get_rag_response emb envKey h question hist outcome).context = [] ∧
      (get_rag_response emb envKey h question hist outcome).state = h ∧
      (get_rag_response emb envKey h question hist outcome).history = hist := by
  unfold get_rag_response
  rw [h0]
  exact ⟨rfl, rfl, rfl, rfl, rfl, rfl⟩

theorem c3_witness :
    (get_rag_response (fun _ => [0]) "" ⟨"key", "model", none⟩ "list customers"
        [⟨"user", "hi"⟩] (.success (some "SELECT 1"))).result =
        .error noActiveIndexError ∧
      (get_rag_response (fun _ => [0]) "" ⟨"key", "model", none⟩ "list customers"
        [⟨"user", "hi"⟩] (.success (some "SELECT 1"))).llmCalled = false :=
  ⟨(c3_uninitialized_ask_fails (fun _ => [0]) "" ⟨"key", "model", none⟩
      "list customers" [⟨"user", "hi"⟩] (.success (some "SELECT 1")) rfl).1,
   (c3_uninitialized_ask_fails (fun _ => [0]) "" ⟨"key", "model", none⟩
      "list customers" [⟨"user", "hi"⟩] (.success (some "SELECT 1")) rfl).2.2.1⟩

/-- C8: for every completion call that receives a response, the returned
text equals the completion body trimmed of surrounding whitespace, and a
missing or empty completion body yields the empty string rather than a
failure. -/
theorem c8_response_trimmed (api_key envKey : String) (content : Option String)
    (hk : ¬(api_key = "" ∧ envKey = "")) :
    call_groq_api api_key envKey (.success content) =
        .ok (pyStrip (content.getD "")) ∧
      ((content = none ∨ content = some "") →
        call_groq_api api_key envKey (.success content) = .ok "") := by
  have hval : (if api_key = "" then envKey else api_key) ≠ "" := by
    by_cases ha : api_key = ""
    · simpa [ha] using fun he => hk ⟨ha, he⟩
    · simp [ha]
  have hclient : get_groq_client api_key envKey =
      .ok (if api_key = "" then envKey else api_key) := by
    unfold get_groq_client
    simp [hval]
  unfold call_groq_api
  rw [hclient]
  constructor
  · cases content with
    | none => rfl
    | some c =>
      by_cases hc : c = ""
      · subst hc; rfl
      · simp [hc]
  · rintro (rfl | rfl) <;> rfl

theorem c8_witness :
    call_groq_api "key" "" (.success (some "  SELECT 1;  ")) = .ok "SELECT 1;" ∧
      call_groq_api "key" "" (.success none) = .ok "" := by
  constructor
  · have h := (c8_response_trimmed "key" "" (some "  SELECT 1;  ") (by simp)).1
    rw [h]
    rfl
  · exact (c8_response_trimmed "key" "" none (by simp)).2 (Or.inl rfl)

/-- C1, counterexample: after a successful setup, a failing setup call
does not leave the controller Uninitialized with no index — the
previously built index survives the failure and is still present, so the
claim "no stale index from a previous successful setup remains queryable
after the failure" is false on the code. -/
theorem c1_counterexample :
    (setup_step ⟨"key", "model", none⟩ "CREATE TABLE customers (id INT);").2 = none ∧
      ((setup_step ⟨"key", "model", none⟩
        "CREATE TABLE customers (id INT);").1.rag_chain).isSome = true ∧
      ((setup_step (setup_step ⟨"key", "model", none⟩
        "CREATE TABLE customers (id INT);").1 "").2).isSome = true ∧
      (((setup_step (setup_step ⟨"key", "model", none⟩
        "CREATE TABLE customers (id INT);").1 "").1.rag_chain)).isSome = true := by
  decide

/-- C1, amended: if `setup(document)` fails at any stage, the
controller's state is exactly what it was before the call — no partial
index is installed, and the controller is Uninitialized after the
failure iff it already was before; an index from a previous successful
setup is retained, not discarded. -/
theorem c1_amended_setup_failure_preserves_state (h : RAGHandler) (text : String)
    (hfail : ((setup_step h text).2).isSome = true) :
    (setup_step h text).1 = h ∧
      ((setup_step h text).1.rag_chain = none ↔ h.rag_chain = none) := by
  unfold setup_step at hfail ⊢
  cases hc : setup_rag_from_text h text with
  | ok h' => rw [hc] at hfail; simp at hfail
  | error e => exact ⟨rfl, Iff.rfl⟩

theorem c1_witness :
    ((setup_step ⟨"key", "model", some ⟨["x".data]⟩⟩ "").2).isSome = true ∧
      (setup_step ⟨"key", "model", some ⟨["x".data]⟩⟩ "").1 =
        ⟨"key", "model", some ⟨["x".data]⟩⟩ :=
  ⟨by decide,
   (c1_amended_setup_failure_preserves_state ⟨"key", "model", some ⟨["x".data]⟩⟩
     "" (by decide)).1⟩

/-- C9: the `rag_chain` field is assigned only as the final step of a
fully successful build, so a setup call that fails at any stage leaves
the session's `rag_chain` exactly what it was before the call — in
particular a previously built chain remains present, and a subsequent
query still passes the initialization gate (retrieval is reached). -/
theorem c9_failed_rebuild_keeps_chain (emb : List Char → List Int) (envKey : String)
    (h : RAGHandler) (f : UploadedFile) (question : String) (hist : List Msg)
    (outcome : ApiOutcome)
    (hfail : ((setup_file_step h f).2).isSome = true) :
    (setup_file_step h f).1.rag_chain = h.rag_chain ∧
      (h.rag_chain.isSome = true →
        (get_rag_response emb envKey (setup_file_step h f).1 question hist
          outcome).retrieved = true) := by
  unfold setup_file_step at hfail ⊢
  cases hc : setup_rag_from_file h f with
  | ok h' => rw [hc] at hfail; simp at hfail
  | error e =>
    refine ⟨rfl, fun hsome => ?_⟩
    unfold get_rag_response
    cases hrc : h.rag_chain with
    | none => rw [hrc] at hsome; simp at hsome
    | some chain => rfl

theorem c9_witness :
    (setup_file_step ⟨"key", "model", some ⟨["x".data]⟩⟩
        ⟨"application/pdf", [], []⟩).1.rag_chain = some ⟨["x".data]⟩ ∧
      (get_rag_response (fun _ => [0]) ""
        (setup_file_step ⟨"key", "model", some ⟨["x".data]⟩⟩
          ⟨"application/pdf", [], []⟩).1
        "q" [] .rateLimit).retrieved = true := by
  have h := c9_failed_rebuild_keeps_chain (fun _ => [0]) ""
    ⟨"key", "model", some ⟨["x".data]⟩⟩ ⟨"application/pdf", [], []⟩ "q" []
    .rateLimit (by decide)
  exact ⟨h.1, h.2 (by decide)⟩

/-- C2, counterexample: on a rate-limit condition `_call_groq_api`
re-raises the built-in `ConnectionError` — the very class the claim says
the failure must be distinct from, and the same class raised for
transport failures — so the claim "fails with RateLimitError, an error
distinct from ... ConnectionError" is false on the code. -/
theorem c2_counterexample :
    call_groq_api "key" "" .rateLimit =
        .error (.connectionError rateLimitMsg) ∧
      errorIsConnectionError (call_groq_api "key" "" .rateLimit) = true ∧
      errorIsConnectionError
        (call_groq_api "key" "" (.connectionFailure "timeout")) = true := by
  decide

/-- C2, amended: when the hosted model call fails due to a rate-limit
condition, the call fails with `ConnectionError("Groq rate limit
exceeded. Please check your plan.")` — the same exception class as
transport failures, though with a message no transport failure can
carry, and a class distinct from `AuthenticationError` (`ValueError`)
and `ApiStatusError` (`RuntimeError`).  The error is surfaced to the
caller rather than retried, the conversation history gains no answer
turn, and the session state (hence the Vector Index) is unchanged for a
retry. -/
theorem c2_amended_rate_limit (emb : List Char → List Int) (envKey : String)
    (h : RAGHandler) (chain : RAGChain) (question : String) (hist : List Msg)
    (hc : h.rag_chain = some chain) (hk : h.api_key ≠ "") :
    (get_rag_response emb envKey h question hist .rateLimit).result =
        .error (.connectionError rateLimitMsg) ∧
      (get_rag_response emb envKey h question hist .rateLimit).state = h ∧
      (get_rag_response emb envKey h question hist .rateLimit).history = hist ∧
      (get_rag_response emb envKey h question hist .rateLimit).llmCalled = true ∧
      (∀ m, (PyError.connectionError rateLimitMsg) ≠ .valueError m) ∧
      (∀ m, (PyError.connectionError rateLimitMsg) ≠ .runtimeError m) ∧
      (∀ cause, (PyError.connectionError rateLimitMsg) ≠
        .connectionError ("Failed to connect to Groq API: " ++ cause)) := by
  unfold get_rag_response
  rw [hc]
  exact ⟨call_groq_rateLimit h.api_key envKey hk, rfl, rfl, rfl,
    fun m hem => by simp at hem, fun m hem => by simp at hem,
    rateLimit_ne_transport⟩

theorem c2_witness :
    (get_rag_response (fun _ => [0]) "" ⟨"key", "model", some ⟨["x".data]⟩⟩ "q"
        [⟨"user", "hi"⟩] .rateLimit).result =
        .error (.connectionError rateLimitMsg) ∧
      (get_rag_response (fun _ => [0]) "" ⟨"key", "model", some ⟨["x".data]⟩⟩ "q"
        [⟨"user", "hi"⟩] .rateLimit).history = [⟨"user", "hi"⟩] :=
  ⟨(c2_amended_rate_limit (fun _ => [0]) "" ⟨"key", "model", some ⟨["x".data]⟩⟩
      ⟨["x".data]⟩ "q" [⟨"user", "hi"⟩] rfl (by decide)).1,
   (c2_amended_rate_limit (fun _ => [0]) "" ⟨"key", "model", some ⟨["x".data]⟩⟩
      ⟨["x".data]⟩ "q" [⟨"user", "hi"⟩] rfl (by decide)).2.2.1⟩

/-- C10: when the conversation history passed to `get_rag_response` is
empty, the history section of the chain input is the literal string
"No conversation history."; otherwise it is the turns in their given
order, each rendered as the turn's role with its first letter
capitalized, a colon and space, then the content, joined by single
newlines (for the data model's roles `user` and `assistant`, for which
Python's `str.capitalize` agrees with first-letter capitalization). -/
theorem c10_history_formatting (emb : List Char → List Int) (envKey : String)
    (h : RAGHandler) (chain : RAGChain) (question : String) (hist : List Msg)
    (outcome : ApiOutcome) (hc : h.rag_chain = some chain)
    (hr : ∀ m ∈ hist, m.role = "user" ∨ m.role = "assistant") :
    (get_rag_response emb envKey h question hist outcome).historyInput =
      some (if hist = [] then "No conversation history."
        else String.intercalate "\n"
          (hist.map (fun m => capFirst m.role ++ ": " ++ m.content))) := by
  unfold get_rag_response
  rw [hc]
  show some (format_history hist) = _
  congr 1
  unfold format_history
  by_cases he : hist = []
  · rw [if_pos he, if_pos he]
  · rw [if_neg he, if_neg he]
    congr 1
    apply List.map_congr_left
    intro m hm
    unfold renderTurn
    rcases hr m hm with hrole | hrole <;> rw [hrole]
    · rw [show pyCapitalize "user" = capFirst "user" from by decide]
    · rw [show pyCapitalize "assistant" = capFirst "assistant" from by decide]

theorem c10_witness :
    (get_rag_response (fun _ => [0]) "" ⟨"key", "model", some ⟨["x".data]⟩⟩ "q"
        [⟨"user", "hello"⟩, ⟨"assistant", "hi there"⟩]
        (.success (some "ok"))).historyInput =
      some "User: hello\nAssistant: hi there" := by
  have h := c10_history_formatting (fun _ => [0]) ""
    ⟨"key", "model", some ⟨["x".data]⟩⟩ ⟨["x".data]⟩ "q"
    [⟨"user", "hello"⟩, ⟨"assistant", "hi there"⟩] (.success (some "ok"))
    rfl (by decide)
  rw [h]
  rfl

/-- C4: at most one VectorIndex is live per session (the single
`rag_chain : Option` field), and a second successful setup fully
replaces the first: every chunk any subsequent query returns is a chunk
of the newest document, and a term that occurs in the first document but
not in the second is contained in no returned chunk. -/
theorem c4_replace_not_merge (emb : List Char → List Int) (envKey : String)
    (h h1 h2 : RAGHandler) (c1 c2 question : String) (hist : List Msg)
    (outcome : ApiOutcome) (t : List Char)
    (s1 : setup_step h c1 = (h1, none))
    (s2 : setup_step h1 c2 = (h2, none))
    (ht1 : t <:+: c1.data) (ht2 : ¬ t <:+: c2.data) :
    ∀ ch ∈ (get_rag_response emb envKey h2 question hist outcome).context,
      ch ∈ split_text 1000 200 c2.data ∧ ¬ t <:+: ch := by
  have hc2 := setup_step_ok_chain h1 h2 c2 s2
  intro ch hch
  rw [get_rag_response_context emb envKey h2 question hist outcome _ hc2] at hch
  have hmem := retrieve_subset emb _ question.data 4 ch hch
  refine ⟨hmem, fun hinf => ?_⟩
  obtain ⟨s, tt, hst⟩ := split_text_infix 1000 200 c2.data ch hmem
  exact ht2 (hinf.trans ⟨s, tt, hst⟩)

theorem c4_witness :
    ("beta".data ∈ (get_rag_response (fun _ => [0]) ""
        ⟨"key", "model", some ⟨["beta".data]⟩⟩
        "query" [] (.success (some "ok"))).context) ∧
      ¬ "alpha".data <:+: "beta".data := by
  refine ⟨by decide, ?_⟩
  exact ((c4_replace_not_merge (fun _ => [0]) "" ⟨"key", "model", none⟩
      ⟨"key", "model", some ⟨["alpha".data]⟩⟩
      ⟨"key", "model", some ⟨["beta".data]⟩⟩
      "alpha" "beta" "query" [] (.success (some "ok")) "alpha".data
      (by decide) (by decide) (by decide) (by decide)) "beta".data (by decide)).2

/-- C6: extraction fails with the `UnsupportedFormat` failure exactly
when the declared media type is outside {plain text, delimited table,
spreadsheet}; on plain-text input with invalid encoding it fails with
the `DecodingError` wrapper, a failure distinguishable from the
`UnsupportedFormat` one (both are carried by the same `RuntimeError`
wrapper but with necessarily different messages); and valid plain text
is returned decoded, unchanged. -/
theorem c6_extract_failures (f : UploadedFile) :
    (isUnsupportedResult (load_and_process_file f) ↔
      f.ftype ∉ ["text/plain", "text/csv", xlsxType]) ∧
    (f.ftype = "text/plain" → decodeUtf8String f.rawBytes = none →
      load_and_process_file f = .error (fileError utf8CodecMsg)) ∧
    (∀ t, fileError utf8CodecMsg ≠ fileError ("Unsupported file type: " ++ t)) ∧
    (f.ftype = "text/plain" → ∀ s, decodeUtf8String f.rawBytes = some s →
      load_and_process_file f = .ok s) := by
  refine ⟨⟨?_, ?_⟩, ?_, utf8CodecMsg_ne_unsupported, ?_⟩
  · rintro ⟨t, ht⟩
    unfold load_and_process_file at ht
    by_cases h1 : f.ftype = "text/plain"
    · rw [if_pos h1] at ht
      cases hdec : decodeUtf8String f.rawBytes with
      | some s => rw [hdec] at ht; exact absurd ht (by simp)
      | none =>
        rw [hdec] at ht
        injection ht with ht'
        exact absurd ht' (utf8CodecMsg_ne_unsupported t)
    · by_cases h2 : f.ftype = "text/csv"
      · rw [if_neg h1, if_pos h2] at ht
        exact absurd ht (by simp)
      · by_cases h3 : f.ftype = xlsxType
        · rw [if_neg h1, if_neg h2, if_pos h3] at ht
          exact absurd ht (by simp)
        · simp [h1, h2, h3]
  · intro hnot
    simp only [List.mem_cons, List.not_mem_nil, or_false, not_or] at hnot
    obtain ⟨h1, h2, h3⟩ := hnot
    refine ⟨f.ftype, ?_⟩
    unfold load_and_process_file
    rw [if_neg h1, if_neg h2, if_neg h3]
  · intro h1 hdec
    unfold load_and_process_file
    rw [if_pos h1, hdec]
  · intro h1 s hdec
    unfold load_and_process_file
    rw [if_pos h1, hdec]

theorem c6_witness :
    decodeUtf8String [0xff] = none ∧
      load_and_process_file ⟨"text/plain", [0xff], []⟩ =
        .error (fileError utf8CodecMsg) ∧
      load_and_process_file ⟨"text/plain", [0x68, 0x69], []⟩ = .ok "hi" := by
  refine ⟨by decide, ?_, ?_⟩
  · exact (c6_extract_failures ⟨"text/plain", [0xff], []⟩).2.1 rfl (by decide)
  · exact (c6_extract_failures ⟨"text/plain", [0x68, 0x69], []⟩).2.2.2 rfl "hi"
      (by decide)

/-- C7: user-supplied content containing template-delimiter characters
(braces) is never interpreted as template syntax: Python's one-pass
`str.format` splices values in verbatim without rescanning them, so for
every schema (non-blank, so the contextual branch is taken), question
and history the assembled prompts succeed and contain the user content
literally between fixed template pieces, and history turns are passed
through as messages untouched. -/
theorem c7_braces_neutralized (schema question : String) (hist : List Msg)
    (hs : pyStrip schema ≠ "") :
    pyFormat [("schema", schema)] CONTEXTUAL_SYSTEM_PROMPT =
        some (ctxPre ++ schema ++ ctxPost) ∧
      buildIntelligentMessages hist schema =
        some (⟨"system", ctxPre ++ schema ++ ctxPost⟩ ::
          hist.filter (fun m => m.role != "system")) ∧
      app_full_prompt schema question =
        some (tplPre ++ schema ++ tplMid ++ question ++ tplPost) := by
  refine ⟨contextual_format schema, ?_, prompt_template_format schema question⟩
  unfold buildIntelligentMessages
  rw [if_pos hs, contextual_format schema]
  rfl

theorem c7_witness :
    pyStrip "CREATE TABLE t (id INT); \x7bnot_a_field\x7d \x7d\x7b" ≠ "" ∧
      app_full_prompt "CREATE TABLE t (id INT); \x7bnot_a_field\x7d \x7d\x7b"
          "what is \x7bx\x7d?" =
        some (tplPre ++ "CREATE TABLE t (id INT); \x7bnot_a_field\x7d \x7d\x7b" ++
          tplMid ++ "what is \x7bx\x7d?" ++ tplPost) :=
  ⟨by decide,
   (c7_braces_neutralized "CREATE TABLE t (id INT); \x7bnot_a_field\x7d \x7d\x7b"
     "what is \x7bx\x7d?" [] (by decide)).2.2⟩

/-- C5, counterexample: the claimed per-column shape — one header line,
then one line per non-null cell value, then a blank separator line — is
false on the code: for the single column `id` with the single non-null
value `1` the serialized output has five line pieces, not the four the
claimed shape allows, because the code writes an additional fixed
`  Columns:` line after each header. -/
theorem c5_counterexample : ¬ C5Claim [("id", [some "1"])] := by
  rintro ⟨blocks, hlen, hblocks, hsp⟩
  have hsplit : splitSep '\n' (load_and_process_tabular [("id", [some "1"])]) =
      ["- Table/Sheet Name: \x27id\x27".data, "  Columns:".data, "    - 1".data,
        [], []] := by decide
  have hb1 : ∃ b, blocks = [b] := by
    cases blocks with
    | nil => simp at hlen
    | cons b bs =>
      cases bs with
      | nil => exact ⟨b, rfl⟩
      | cons b2 bs2 => simp at hlen
  obtain ⟨b, rfl⟩ := hb1
  have hcb := hblocks 0 (by simp) (by simp)
  obtain ⟨hline, vlines, hb, _, hvlen, _⟩ := hcb
  have hvl : vlines.length = 1 := by
    rw [hvlen]
    decide
  have hb2 : b = hline :: (vlines ++ [[]]) := hb
  have hblen : b.length = 3 := by
    rw [hb2]
    simp [hvl]
  rcases hsp with hsp | hsp <;> rw [hsplit] at hsp <;>
    have hlen5 := congrArg List.length hsp <;>
    simp [hblen] at hlen5

/-- C5, amended: for every tabular input whose column names and cell
values contain no newline, the Content Extractor iterates the declared
columns in file order and, for each column, emits a header line naming
that column, then a fixed sub-header line `  Columns:`, then one line
per non-null cell value of that column in row order (each value prefixed
by `    - `), followed by a blank separator line; the serialization is a
pure function of the input, hence deterministic. -/
theorem c5_amended_tabular_structure (df : List (String × List (Option String)))
    (hnl : ∀ col ∈ df, ('\n' ∉ col.1.data) ∧ ∀ v ∈ dropna col.2, '\n' ∉ v.data) :
    splitSep '\n' (load_and_process_tabular df) =
      (df.map columnLines).flatten ++ [[]] :=
  load_and_process_tabular_lines df hnl

theorem c5_witness :
    splitSep '\n' (load_and_process_tabular
        [("id", [some "1", some "2"]), ("name", [some "Alice", some "Bob"])]) =
      ["- Table/Sheet Name: \x27id\x27".data, "  Columns:".data, "    - 1".data,
        "    - 2".data, [], "- Table/Sheet Name: \x27name\x27".data,
        "  Columns:".data, "    - Alice".data, "    - Bob".data, [], []] := by
  have h := c5_amended_tabular_structure
    [("id", [some "1", some "2"]), ("name", [some "Alice", some "Bob"])]
    (by decide)
  rw [h]
  decide
